import Mathlib

/-!
# Dashboard script (`data/script.js`): buffer, pagination and labels

A shallow embedding of the browser script of the CO2 dashboard.

* The module-level variables `allData`, `currentPage`, `isLoadingMore` and
  `hasMoreData` are the fields of `State`.  Two ghost fields record the
  requests that are on the wire: the history requests issued by `fetchHistory`
  and the requests of the ten-minute refresh timer.
* A promise chain is modelled by the function that runs its handlers in order
  (`then`, `catch`, `finally`) once the request has completed; the handlers of
  one chain run back to back, so a completion is one atomic step.
* Timestamps are integers (seconds since the epoch), sensor values are
  rationals.  The DOM and the chart objects are not part of the state; the one
  thing kept of `updateCharts` is whether it returns normally or throws.
-/

namespace Dashboard

/-- One entry of `data.history`. -/
structure Sample where
  timestamp : Int
  co2 : Rat
  temperature : Rat
  humidity : Rat
deriving DecidableEq, Repr

/-- Body of a `/api/history` response after `response.json()`: `history` may be
missing, `hasMore` may be missing (or not a boolean, which behaves the same
under `!== false`). -/
structure HistoryResponse where
  history : Option (List Sample)
  hasMore : Option Bool
deriving DecidableEq, Repr

/-- A request issued by `fetchHistory(page, append)` that has not completed. -/
structure Request where
  page : Nat
  append : Bool
deriving DecidableEq, Repr

/-- The module-level variables of the script, with the ghost record of the
requests in flight. -/
structure State where
  allData : List Sample
  currentPage : Nat
  isLoadingMore : Bool
  hasMoreData : Bool
  outstanding : List Request
  syncOutstanding : Nat
deriving DecidableEq, Repr

/-- Line 4: `const PAGE_SIZE = 144`, 24 hours at 10-minute intervals. -/
def PAGE_SIZE : Nat := 144

/-- Values of the variables when the script is loaded (lines 2-6). -/
def init : State :=
  { allData := [], currentPage := 0, isLoadingMore := false, hasMoreData := true,
    outstanding := [], syncOutstanding := 0 }

/-! ## `setStatusColor` -/

/-- What `setStatusColor` writes to the page: the colour of `co2-status` and
the text of `co2-health-label`. -/
structure StatusDisplay where
  color : String
  label : String
deriving DecidableEq, Repr

/-- Lines 163-172. -/
def setStatusColor (co2 : Rat) : StatusDisplay :=
  if co2 < 800 then { color := "#4CAF50", label := "Good" }
  else if co2 < 1200 then { color := "#FFC107", label := "Moderate" }
  else if co2 < 1500 then { color := "#FF9800", label := "High" }
  else { color := "#F44336", label := "Very High" }

/-! ## `formatTimeLabel` -/

/-- The four shapes of label `formatTimeLabel` can return. -/
inductive LabelForm where
  | timeOnly
  | yesterdayTime
  | weekdayTime
  | monthDayTime
deriving DecidableEq, Repr

/-- Milliseconds in a day, `1000 * 60 * 60 * 24`. -/
def msPerDay : Int := 1000 * 60 * 60 * 24

/-- Line 93: `Math.floor((now - date) / (1000 * 60 * 60 * 24))`, with `date`
the instant `timestamp * 1000` and `now` the clock reading in milliseconds.
The divisor is positive, so integer division is the floor. -/
def diffDays (timestamp now : Int) : Int :=
  (now - timestamp * 1000) / msPerDay

/-- Lines 90-106, with the clock reading `now` (milliseconds) made a
parameter; the result is the shape of the label. -/
def formatTimeLabel (timestamp now : Int) : LabelForm :=
  if diffDays timestamp now = 0 then LabelForm.timeOnly
  else if diffDays timestamp now = 1 then LabelForm.yesterdayTime
  else if diffDays timestamp now < 7 then LabelForm.weekdayTime
  else LabelForm.monthDayTime

/-- Index of the calendar day on which the instant `ms` (milliseconds since the
epoch) falls for a viewer whose local time is `tzOffset` milliseconds ahead
of UTC. -/
def calendarDay (tzOffset ms : Int) : Int :=
  (ms + tzOffset) / msPerDay

/-- The label shape as the specification words it: by calendar-day recency of
the sample relative to `now`. -/
def calendarLabelForm (tzOffset timestamp now : Int) : LabelForm :=
  let d := calendarDay tzOffset now - calendarDay tzOffset (timestamp * 1000)
  if d = 0 then LabelForm.timeOnly
  else if d = 1 then LabelForm.yesterdayTime
  else if d < 7 then LabelForm.weekdayTime
  else LabelForm.monthDayTime

/-! ## The ten-minute refresh -/

/-- Line 304: timestamp of the last stored entry, `0` for an empty buffer. -/
def latestStoredTimestamp (allData : List Sample) : Int :=
  match allData.getLast? with
  | some item => item.timestamp
  | none => 0

/-- Lines 301-312: the `then` handler of the refresh timer, which touches
`allData` only. -/
def syncThen (data : HistoryResponse) (allData : List Sample) : List Sample :=
  match data.history with
  | some history =>
    if history.length > 0 then
      let newEntries :=
        history.filter (fun item => decide (item.timestamp > latestStoredTimestamp allData))
      if newEntries.length > 0 then allData ++ newEntries else allData
    else allData
  | none => allData

/-! ## `fetchHistory` and `loadMoreData` -/

/-- Lines 191-197: the synchronous part of `fetchHistory(page, append)`. -/
def fetchHistory (page : Nat) (append : Bool) (s : State) : State :=
  if s.isLoadingMore then s
  else { s with isLoadingMore := true, outstanding := s.outstanding ++ [⟨page, append⟩] }

/-- Lines 229-233. -/
def loadMoreData (s : State) : State :=
  if !s.hasMoreData || s.isLoadingMore then s
  else fetchHistory (s.currentPage + 1) true { s with currentPage := s.currentPage + 1 }

/-- Lines 199-219: the `then` handler of the history request.  `renderOk` says
whether `updateCharts()` returns normally; when it throws, the handler stops
after the assignment to `allData`. -/
def historyThen (pageSize : Nat) (append : Bool) (data : HistoryResponse) (renderOk : Bool)
    (s : State) : State :=
  match data.history with
  | some history =>
    if history.length > 0 then
      let s1 := { s with allData := if append then history ++ s.allData else history }
      if renderOk then
        { s1 with hasMoreData := (data.hasMore != some false) && decide (history.length ≥ pageSize) }
      else s1
    else { s with hasMoreData := false }
  | none => { s with hasMoreData := false }

/-- Line 223-226: the `finally` handler. -/
def historyFinally (s : State) : State :=
  { s with isLoadingMore := false }

/-- How a history request can complete: the `fetch` is rejected, the body does
not decode (or is not an object, so that reading `data.history` throws before
any assignment), or a decoded body reaches the `then` handler. -/
inductive Outcome where
  | networkFailure
  | decodeFailure
  | success (data : HistoryResponse) (renderOk : Bool)
deriving DecidableEq, Repr

/-- Lines 197-226: the handler chain of one history request.  A rejected
`fetch` or `response.json()` skips the `then` handler; the `catch` handler
only logs; the `finally` handler always runs. -/
def settle (pageSize : Nat) (append : Bool) (o : Outcome) (s : State) : State :=
  match o with
  | Outcome.networkFailure => historyFinally s
  | Outcome.decodeFailure => historyFinally s
  | Outcome.success data renderOk => historyFinally (historyThen pageSize append data renderOk s)

/-! ## Events -/

/-- What can happen to the page.  `historyDone i o` completes the `i`-th
outstanding history request with outcome `o`; `syncDone r` completes a refresh
request, `none` standing for a failed one. -/
inductive Event where
  | pageLoad
  | loadMore
  | measureNowOk
  | clearLogOk
  | historyDone (i : Nat) (o : Outcome)
  | syncTick
  | syncDone (r : Option HistoryResponse)
deriving DecidableEq, Repr

/-- One event.  An event that is not enabled (a completion with no matching
request) leaves the state as it is. -/
def step (pageSize : Nat) (e : Event) (s : State) : State :=
  match e with
  | Event.pageLoad => fetchHistory 0 false s
  | Event.loadMore => loadMoreData s
  | Event.measureNowOk => fetchHistory 0 false { s with currentPage := 0 }
  | Event.clearLogOk =>
    fetchHistory 0 false { s with allData := [], currentPage := 0, hasMoreData := true }
  | Event.historyDone i o =>
    match s.outstanding.get? i with
    | some req => settle pageSize req.append o { s with outstanding := s.outstanding.eraseIdx i }
    | none => s
  | Event.syncTick => { s with syncOutstanding := s.syncOutstanding + 1 }
  | Event.syncDone r =>
    if s.syncOutstanding = 0 then s
    else
      match r with
      | some data =>
        { s with syncOutstanding := s.syncOutstanding - 1, allData := syncThen data s.allData }
      | none => { s with syncOutstanding := s.syncOutstanding - 1 }

/-- The state after a sequence of events, oldest first. -/
def run (pageSize : Nat) (es : List Event) (s : State) : State :=
  es.foldl (fun acc e => step pageSize e acc) s

/-- Sample with the given timestamp and fixed readings, for examples. -/
def sampleAt (t : Int) : Sample :=
  { timestamp := t, co2 := 600, temperature := 21, humidity := 40 }

/-! ## Buffer operations and ordering -/

/-- Strictly ascending by timestamp: every entry is older than every later
entry, so no two entries share a timestamp. -/
def StrictAsc (l : List Sample) : Prop :=
  l.Pairwise (fun a b => a.timestamp < b.timestamp)

instance (l : List Sample) : Decidable (StrictAsc l) := by
  unfold StrictAsc
  infer_instance

/-- The three ways a fetched response reaches `allData`: a reload
(`fetchHistory` with `append = false`), an older-page load (`append = true`)
and the merge of the ten-minute refresh. -/
inductive BufferOp where
  | replaceAll (data : HistoryResponse)
  | prependOlder (data : HistoryResponse)
  | appendNewer (data : HistoryResponse)
deriving DecidableEq, Repr

/-- The page carried by an operation, empty when `history` is missing. -/
def BufferOp.page : BufferOp → List Sample
  | BufferOp.replaceAll data => data.history.getD []
  | BufferOp.prependOlder data => data.history.getD []
  | BufferOp.appendNewer data => data.history.getD []

/-- One buffer operation, carried out by the handler that performs it. -/
def applyOp (pageSize : Nat) (op : BufferOp) (s : State) : State :=
  match op with
  | BufferOp.replaceAll data => historyThen pageSize false data true s
  | BufferOp.prependOlder data => historyThen pageSize true data true s
  | BufferOp.appendNewer data => { s with allData := syncThen data s.allData }

/-- The contents of `allData` after each operation of a sequence, in order. -/
def bufferTrace (pageSize : Nat) : List BufferOp → State → List (List Sample)
  | [], _ => []
  | op :: rest, s =>
    (applyOp pageSize op s).allData :: bufferTrace pageSize rest (applyOp pageSize op s)

/-- The condition under which an operation keeps the buffer ordered: its page
is strictly ascending, and a page that is prepended is older than the earliest
entry of the buffer. -/
def opOk (op : BufferOp) (allData : List Sample) : Prop :=
  match op with
  | BufferOp.prependOlder data =>
    StrictAsc (data.history.getD []) ∧
      ∀ x ∈ data.history.getD [], ∀ y ∈ allData.head?, x.timestamp < y.timestamp
  | other => StrictAsc other.page

/-- Every operation of the sequence meets `opOk` in the state it is applied to. -/
def opsOk (pageSize : Nat) : List BufferOp → State → Prop
  | [], _ => True
  | op :: rest, s => opOk op s.allData ∧ opsOk pageSize rest (applyOp pageSize op s)

/-- The page every timestamp of which is already in the buffer. -/
def FullyOverlaps (page allData : List Sample) : Prop :=
  ∀ x ∈ page, ∃ y ∈ allData, y.timestamp = x.timestamp

/-- Events other than the two that can set `hasMoreData` to `true`: a
successful `clearLog`, and a history response whose handler runs to the end. -/
def Event.quiet : Event → Bool
  | Event.clearLogOk => false
  | Event.historyDone _ (Outcome.success _ true) => false
  | _ => true

/-- Number of entries of `data.history`, `0` when it is missing. -/
def HistoryResponse.length (data : HistoryResponse) : Nat :=
  (data.history.getD []).length

instance (op : BufferOp) (allData : List Sample) : Decidable (opOk op allData) := by
  cases op <;> (simp only [opOk]; infer_instance)

instance decidableOpsOk (pageSize : Nat) :
    (ops : List BufferOp) → (s : State) → Decidable (opsOk pageSize ops s)
  | [], _ => isTrue trivial
  | op :: rest, s =>
    have := decidableOpsOk pageSize rest (applyOp pageSize op s)
    inferInstanceAs (Decidable (opOk op s.allData ∧ opsOk pageSize rest (applyOp pageSize op s)))

instance (page allData : List Sample) : Decidable (FullyOverlaps page allData) := by
  unfold FullyOverlaps
  infer_instance

/-- A full page: `PAGE_SIZE` samples ten minutes apart, the oldest at `start`. -/
def fullPage (start : Int) : List Sample :=
  (List.range PAGE_SIZE).map (fun i => sampleAt (start + 600 * (i : Int)))

/-- A session for examples: the first page arrived full, then the refresh timer
fired and an older page was requested; both requests are still on the wire. -/
def pendingSession : List Event :=
  [Event.pageLoad, Event.historyDone 0 (Outcome.success ⟨some (fullPage 1000), none⟩ true),
   Event.syncTick, Event.loadMore]

/-- The lock `isLoadingMore` is held exactly while one request is outstanding. -/
def LockInv (s : State) : Prop :=
  (s.isLoadingMore = true → s.outstanding.length = 1) ∧
  (s.isLoadingMore = false → s.outstanding = [])

/-! ## Auxiliary facts -/

theorem mem_le_latestStoredTimestamp (l : List Sample) (h : StrictAsc l) (a : Sample)
    (ha : a ∈ l) : a.timestamp ≤ latestStoredTimestamp l := by
  rcases List.eq_nil_or_concat l with hnil | ⟨front, z, hl⟩
  · subst hnil; simp at ha
  · rw [List.concat_eq_append] at hl
    subst hl
    have hlast : latestStoredTimestamp (front ++ [z]) = z.timestamp := by
      simp [latestStoredTimestamp]
    rw [hlast]
    unfold StrictAsc at h
    rw [List.pairwise_append] at h
    rcases List.mem_append.mp ha with hf | hz
    · exact le_of_lt (h.2.2 a hf z (by simp))
    · have : a = z := by simpa using hz
      rw [this]

theorem strictAsc_syncThen (data : HistoryResponse) (allData : List Sample)
    (hbuf : StrictAsc allData) (hpage : StrictAsc (data.history.getD [])) :
    StrictAsc (syncThen data allData) := by
  unfold syncThen
  cases hh : data.history with
  | none => simpa using hbuf
  | some history =>
    simp only [hh, Option.getD_some] at hpage
    simp only
    split_ifs with h1 h2
    · unfold StrictAsc
      rw [List.pairwise_append]
      refine ⟨hbuf, List.Pairwise.filter _ hpage, ?_⟩
      intro a ha b hb
      have hb2 := (List.mem_filter.mp hb).2
      have hb3 : latestStoredTimestamp allData < b.timestamp := by simpa using hb2
      exact lt_of_le_of_lt (mem_le_latestStoredTimestamp allData hbuf a ha) hb3
    · exact hbuf
    · exact hbuf

theorem strictAsc_applyOp (pageSize : Nat) (op : BufferOp) (s : State)
    (hbuf : StrictAsc s.allData) (hop : opOk op s.allData) :
    StrictAsc (applyOp pageSize op s).allData := by
  cases op with
  | replaceAll data =>
    simp only [opOk, BufferOp.page] at hop
    unfold applyOp historyThen
    cases hh : data.history with
    | none => simpa [hh] using hbuf
    | some history =>
      simp only [hh, Option.getD_some] at hop
      simp only [hh]
      split_ifs <;> simp_all
  | prependOlder data =>
    simp only [opOk] at hop
    unfold applyOp historyThen
    cases hh : data.history with
    | none => simpa [hh] using hbuf
    | some history =>
      simp only [hh, Option.getD_some] at hop
      obtain ⟨hpage, hold⟩ := hop
      have hcat : StrictAsc (history ++ s.allData) := by
        unfold StrictAsc
        rw [List.pairwise_append]
        refine ⟨hpage, hbuf, ?_⟩
        intro a ha b hb
        cases hall : s.allData with
        | nil => rw [hall] at hb; simp at hb
        | cons y rest =>
          have hy : a.timestamp < y.timestamp := hold a ha y (by simp [hall])
          rw [hall] at hb hbuf
          rcases List.mem_cons.mp hb with hby | hbr
          · rw [hby]; exact hy
          · unfold StrictAsc at hbuf
            exact lt_trans hy ((List.pairwise_cons.mp hbuf).1 b hbr)
      simp only [hh]
      split_ifs <;> simp_all
  | appendNewer data =>
    simp only [opOk, BufferOp.page] at hop
    exact strictAsc_syncThen data s.allData hbuf hop

theorem strictAsc_bufferTrace (pageSize : Nat) (ops : List BufferOp) :
    ∀ s : State, StrictAsc s.allData → opsOk pageSize ops s →
      ∀ buf ∈ bufferTrace pageSize ops s, StrictAsc buf := by
  induction ops with
  | nil => intro s _ _ buf hbuf; simp [bufferTrace] at hbuf
  | cons op rest ih =>
    intro s hs hok buf hbuf
    have hnext := strictAsc_applyOp pageSize op s hs hok.1
    simp only [bufferTrace, List.mem_cons] at hbuf
    rcases hbuf with h | h
    · rw [h]; exact hnext
    · exact ih _ hnext hok.2 buf h

theorem syncThen_filter_eq (allData page : List Sample) (hasMore : Option Bool) :
    syncThen ⟨some page, hasMore⟩ allData
      = allData ++
          page.filter (fun item => decide (latestStoredTimestamp allData < item.timestamp)) := by
  unfold syncThen
  simp only [gt_iff_lt]
  split_ifs with h1 h2
  · rfl
  · have hnone :
        page.filter (fun item => decide (latestStoredTimestamp allData < item.timestamp)) = [] := by
      simpa using h2
    rw [hnone]; simp
  · have hpage : page = [] := by simpa using h1
    subst hpage; simp

theorem lockInv_fetchHistory (page : Nat) (append : Bool) (s : State) (h : LockInv s) :
    LockInv (fetchHistory page append s) := by
  unfold fetchHistory
  split_ifs with hl
  · exact h
  · have hnil : s.outstanding = [] := h.2 (by simpa using hl)
    constructor
    · intro _; simp [hnil]
    · intro hc; simp at hc

theorem lockInv_settle (pageSize : Nat) (append : Bool) (o : Outcome) (s : State)
    (h : s.outstanding = []) : LockInv (settle pageSize append o s) := by
  have key : (settle pageSize append o s).isLoadingMore = false ∧
      (settle pageSize append o s).outstanding = s.outstanding := by
    cases o with
    | networkFailure => exact ⟨rfl, rfl⟩
    | decodeFailure => exact ⟨rfl, rfl⟩
    | success data renderOk =>
      simp only [settle, historyFinally, historyThen, true_and]
      cases data.history with
      | none => rfl
      | some history => simp only; split_ifs <;> rfl
  constructor
  · intro hc; rw [key.1] at hc; simp at hc
  · intro _; rw [key.2]; exact h

theorem lockInv_step (pageSize : Nat) (e : Event) (s : State) (h : LockInv s) :
    LockInv (step pageSize e s) := by
  cases e with
  | pageLoad => exact lockInv_fetchHistory _ _ _ h
  | loadMore =>
    simp only [step, loadMoreData]
    split_ifs
    · exact h
    · exact lockInv_fetchHistory _ _ _ h
  | measureNowOk => exact lockInv_fetchHistory _ _ _ h
  | clearLogOk => exact lockInv_fetchHistory _ _ _ h
  | historyDone i o =>
    simp only [step]
    cases hreq : s.outstanding.get? i with
    | none => exact h
    | some req =>
      simp only
      apply lockInv_settle
      cases hl : s.isLoadingMore with
      | false => simp [h.2 hl] at hreq
      | true =>
        have hlen := h.1 hl
        have hi : i < s.outstanding.length := by
          rcases List.get?_eq_some.mp hreq with ⟨hi, _⟩
          exact hi
        have hi0 : i = 0 := by omega
        subst hi0
        cases hout : s.outstanding with
        | nil => rw [hout] at hlen; simp at hlen
        | cons r rest =>
          rw [hout] at hlen
          have : rest = [] := by
            cases rest with
            | nil => rfl
            | cons _ _ => simp at hlen
          simp [this]
  | syncTick => exact h
  | syncDone r =>
    simp only [step]
    split_ifs
    · exact h
    · cases r with
      | none => exact h
      | some data => exact h

theorem lockInv_run (pageSize : Nat) (es : List Event) :
    ∀ s : State, LockInv s → LockInv (run pageSize es s) := by
  induction es with
  | nil => intro s h; exact h
  | cons e rest ih =>
    intro s h
    exact ih _ (lockInv_step pageSize e s h)

theorem lockInv_init : LockInv init := by
  constructor
  · intro h; simp [init] at h
  · intro _; rfl

theorem loadMoreData_of_exhausted (s : State) (h : s.hasMoreData = false) :
    loadMoreData s = s := by
  simp [loadMoreData, h]

theorem loadMoreData_of_loading (s : State) (h : s.isLoadingMore = true) :
    loadMoreData s = s := by
  simp [loadMoreData, h]

theorem hasMoreData_fetchHistory (page : Nat) (append : Bool) (s : State) :
    (fetchHistory page append s).hasMoreData = s.hasMoreData := by
  unfold fetchHistory
  split_ifs <;> rfl

theorem quiet_step_exhausted (pageSize : Nat) (e : Event) (s : State)
    (hq : e.quiet = true) (h : s.hasMoreData = false) :
    (step pageSize e s).hasMoreData = false := by
  cases e with
  | pageLoad => simp only [step, hasMoreData_fetchHistory]; exact h
  | loadMore => simp only [step, loadMoreData_of_exhausted s h]; exact h
  | measureNowOk => simp only [step, hasMoreData_fetchHistory]; exact h
  | clearLogOk => simp [Event.quiet] at hq
  | historyDone i o =>
    simp only [step]
    cases s.outstanding.get? i with
    | none => exact h
    | some req =>
      cases o with
      | networkFailure => exact h
      | decodeFailure => exact h
      | success data renderOk =>
        cases renderOk with
        | true => simp [Event.quiet] at hq
        | false =>
          simp only [settle, historyFinally, historyThen]
          cases data.history with
          | none => rfl
          | some history =>
            simp only [Bool.false_eq_true, if_false]
            split_ifs <;> first | exact h | rfl
  | syncTick => exact h
  | syncDone r =>
    simp only [step]
    split_ifs
    · exact h
    · cases r with
      | none => exact h
      | some data => exact h

theorem quiet_run_exhausted (pageSize : Nat) (es : List Event) :
    ∀ s : State, (∀ e ∈ es, e.quiet = true) → s.hasMoreData = false →
      (run pageSize es s).hasMoreData = false := by
  induction es with
  | nil => intro s _ h; exact h
  | cons e rest ih =>
    intro s hq h
    exact ih _ (fun e2 he2 => hq e2 (List.mem_cons_of_mem _ he2))
      (quiet_step_exhausted pageSize e s (hq e (List.mem_cons_self _ _)) h)

/-! ## The claims -/

/-- C1 (amended): starting from the empty buffer, for every sequence of
reloads, older-page loads and refresh merges in which every fetched page is
strictly ascending by timestamp and every prepended page is older than the
earliest entry of the buffer, `allData` is strictly ascending after every
operation. -/
theorem allData_strictAsc_of_ordered_pages (pageSize : Nat) (ops : List BufferOp)
    (h : opsOk pageSize ops init) :
    ∀ buf ∈ bufferTrace pageSize ops init, StrictAsc buf :=
  strictAsc_bufferTrace pageSize ops init (by simp [StrictAsc, init]) h

/-- C1, an instance: a reload, an older page and a refresh that overlaps. -/
theorem allData_strictAsc_of_ordered_pages_witness :
    opsOk PAGE_SIZE
        [BufferOp.replaceAll ⟨some [sampleAt 30, sampleAt 40], none⟩,
         BufferOp.prependOlder ⟨some [sampleAt 10, sampleAt 20], none⟩,
         BufferOp.appendNewer ⟨some [sampleAt 40, sampleAt 50], none⟩] init ∧
    ∀ buf ∈ bufferTrace PAGE_SIZE
        [BufferOp.replaceAll ⟨some [sampleAt 30, sampleAt 40], none⟩,
         BufferOp.prependOlder ⟨some [sampleAt 10, sampleAt 20], none⟩,
         BufferOp.appendNewer ⟨some [sampleAt 40, sampleAt 50], none⟩] init,
      StrictAsc buf :=
  ⟨by decide, allData_strictAsc_of_ordered_pages PAGE_SIZE _ (by decide)⟩

/-- C1 as stated fails: a reload installs a descending page as it is, an older
page that repeats a stored timestamp is prepended whole, and the refresh
appends the new entries of a descending page in page order. -/
theorem allData_not_strictAsc_counterexample :
    (bufferTrace PAGE_SIZE [BufferOp.replaceAll ⟨some [sampleAt 200, sampleAt 100], none⟩] init
        = [[sampleAt 200, sampleAt 100]] ∧
      ¬ StrictAsc [sampleAt 200, sampleAt 100]) ∧
    (bufferTrace PAGE_SIZE
        [BufferOp.replaceAll ⟨some [sampleAt 100], none⟩,
         BufferOp.prependOlder ⟨some [sampleAt 100], none⟩] init
        = [[sampleAt 100], [sampleAt 100, sampleAt 100]] ∧
      ¬ StrictAsc [sampleAt 100, sampleAt 100]) ∧
    (bufferTrace PAGE_SIZE [BufferOp.appendNewer ⟨some [sampleAt 200, sampleAt 100], none⟩] init
        = [[sampleAt 200, sampleAt 100]]) := by
  decide

/-- C2 (amended): in every reachable state at most one request issued by
`fetchHistory` is outstanding; two `loadMoreData` calls in a row issue the one
request for page `currentPage + 1` when `hasMoreData` is true and the lock is
free, and no request otherwise; the second call changes nothing. -/
theorem single_flight (pageSize : Nat) (es : List Event) :
    (run pageSize es init).outstanding.length ≤ 1 ∧
    loadMoreData (loadMoreData (run pageSize es init)) = loadMoreData (run pageSize es init) ∧
    (loadMoreData (loadMoreData (run pageSize es init))).outstanding
      = (run pageSize es init).outstanding ++
          (if (run pageSize es init).hasMoreData && !(run pageSize es init).isLoadingMore
            then [⟨(run pageSize es init).currentPage + 1, true⟩] else []) ∧
    (loadMoreData (loadMoreData (run pageSize es init))).outstanding.length ≤ 1 := by
  have hinv := lockInv_run pageSize es init lockInv_init
  generalize run pageSize es init = s at hinv
  have hlen : ∀ t : State, LockInv t → t.outstanding.length ≤ 1 := by
    intro t ht
    cases hl : t.isLoadingMore with
    | true => rw [ht.1 hl]
    | false => simp [ht.2 hl]
  have hidem : loadMoreData (loadMoreData s) = loadMoreData s := by
    by_cases hg : (!s.hasMoreData || s.isLoadingMore) = true
    · have h1 : loadMoreData s = s := by simp only [loadMoreData, hg, if_true]
      rw [h1, h1]
    · apply loadMoreData_of_loading
      have hl : s.isLoadingMore = false := by
        cases hl : s.isLoadingMore <;> simp_all
      have hm : s.hasMoreData = true := by
        cases hm : s.hasMoreData <;> simp_all
      simp [loadMoreData, fetchHistory, hl, hm]
  refine ⟨hlen s hinv, hidem, ?_, ?_⟩
  · rw [hidem]
    cases hm : s.hasMoreData <;> cases hl : s.isLoadingMore <;>
      simp [loadMoreData, fetchHistory, hm, hl]
  · rw [hidem]
    have : LockInv (loadMoreData s) := lockInv_step pageSize Event.loadMore s hinv
    exact hlen _ this

/-- C2 as stated fails where the history is exhausted: after an empty first
page `hasMoreData` is false and two `loadMoreData` calls issue no request. -/
theorem single_flight_counterexample :
    (run PAGE_SIZE
        [Event.pageLoad, Event.historyDone 0 (Outcome.success ⟨some [], none⟩ true)]
        init).outstanding = [] ∧
    (run PAGE_SIZE
        [Event.pageLoad, Event.historyDone 0 (Outcome.success ⟨some [], none⟩ true)]
        init).hasMoreData = false ∧
    (loadMoreData (run PAGE_SIZE
        [Event.pageLoad, Event.historyDone 0 (Outcome.success ⟨some [], none⟩ true)]
        init)).outstanding = [] ∧
    (loadMoreData (loadMoreData (run PAGE_SIZE
        [Event.pageLoad, Event.historyDone 0 (Outcome.success ⟨some [], none⟩ true)]
        init))).outstanding = [] := by
  decide

/-- C3: the refresh merge sets `allData` to the old `allData` followed by the
page samples whose timestamp exceeds the watermark, in page order; nothing at
or below the watermark is appended; the watermark is the timestamp of the last
entry, `0` for an empty buffer; `[100]` merged with `[90, 150]` is
`[100, 150]`. -/
theorem syncThen_appends_newer (allData page : List Sample) (hasMore : Option Bool) :
    syncThen ⟨some page, hasMore⟩ allData
        = allData ++
            page.filter (fun item => decide (latestStoredTimestamp allData < item.timestamp)) ∧
    (∀ item ∈ page.filter (fun item => decide (latestStoredTimestamp allData < item.timestamp)),
        ¬ item.timestamp ≤ latestStoredTimestamp allData) ∧
    latestStoredTimestamp [] = 0 ∧
    (∀ (front : List Sample) (item : Sample),
        latestStoredTimestamp (front ++ [item]) = item.timestamp) ∧
    syncThen ⟨some [sampleAt 90, sampleAt 150], none⟩ [sampleAt 100]
        = [sampleAt 100, sampleAt 150] := by
  refine ⟨syncThen_filter_eq allData page hasMore, ?_, rfl, ?_, by decide⟩
  · intro item hitem
    have hgt := (List.mem_filter.mp hitem).2
    simpa using hgt
  · intro front item
    simp [latestStoredTimestamp]

set_option maxRecDepth 100000 in
/-- C4, the code at the failing input: the first page arrives full, the
request of the next `loadMoreData` call (page 1) fails, and afterwards
`allData` and `hasMoreData` are as before the call but `currentPage` is 1, not
0; the next `loadMoreData` call requests page 2, so page 1 is never loaded. -/
theorem loadMoreData_failure_skips_page :
    (run PAGE_SIZE
        [Event.pageLoad, Event.historyDone 0 (Outcome.success ⟨some (fullPage 1000), none⟩ true)]
        init).currentPage = 0 ∧
    (run PAGE_SIZE
        [Event.pageLoad, Event.historyDone 0 (Outcome.success ⟨some (fullPage 1000), none⟩ true)]
        init).hasMoreData = true ∧
    (run PAGE_SIZE
        [Event.pageLoad, Event.historyDone 0 (Outcome.success ⟨some (fullPage 1000), none⟩ true),
         Event.loadMore]
        init).outstanding = [⟨1, true⟩] ∧
    (run PAGE_SIZE
        [Event.pageLoad, Event.historyDone 0 (Outcome.success ⟨some (fullPage 1000), none⟩ true),
         Event.loadMore, Event.historyDone 0 Outcome.networkFailure]
        init).currentPage = 1 ∧
    (run PAGE_SIZE
        [Event.pageLoad, Event.historyDone 0 (Outcome.success ⟨some (fullPage 1000), none⟩ true),
         Event.loadMore, Event.historyDone 0 Outcome.networkFailure]
        init).hasMoreData = true ∧
    (run PAGE_SIZE
        [Event.pageLoad, Event.historyDone 0 (Outcome.success ⟨some (fullPage 1000), none⟩ true),
         Event.loadMore, Event.historyDone 0 Outcome.networkFailure]
        init).allData = fullPage 1000 ∧
    (run PAGE_SIZE
        [Event.pageLoad, Event.historyDone 0 (Outcome.success ⟨some (fullPage 1000), none⟩ true),
         Event.loadMore, Event.historyDone 0 Outcome.networkFailure]
        init).isLoadingMore = false ∧
    (run PAGE_SIZE
        [Event.pageLoad, Event.historyDone 0 (Outcome.success ⟨some (fullPage 1000), none⟩ true),
         Event.loadMore, Event.historyDone 0 Outcome.networkFailure, Event.loadMore]
        init).outstanding = [⟨2, true⟩] := by
  decide

/-- C5 (amended): when the `then` handler of a history response with fewer
than `pageSize` entries has run to its end (`updateCharts()` returned
normally, or the history is empty or missing so that it is not called),
`hasMoreData` is false, and after any further events other than a successful
`clearLog` and another history response applied to the end it is still false
and `loadMoreData` is a no-op: the state, outstanding requests included, is
unchanged. -/
theorem short_page_exhausts (pageSize : Nat) (s : State) (i : Nat) (req : Request)
    (data : HistoryResponse) (renderOk : Bool) (es : List Event)
    (hreq : s.outstanding.get? i = some req)
    (hshort : data.length < pageSize)
    (hrun : renderOk = true ∨ data.length = 0)
    (hquiet : ∀ e ∈ es, e.quiet = true) :
    (step pageSize (Event.historyDone i (Outcome.success data renderOk)) s).hasMoreData
      = false ∧
    (run pageSize es
        (step pageSize (Event.historyDone i (Outcome.success data renderOk)) s)).hasMoreData
      = false ∧
    loadMoreData (run pageSize es
        (step pageSize (Event.historyDone i (Outcome.success data renderOk)) s))
      = run pageSize es
          (step pageSize (Event.historyDone i (Outcome.success data renderOk)) s) := by
  have h1 :
      (step pageSize (Event.historyDone i (Outcome.success data renderOk)) s).hasMoreData
        = false := by
    simp only [step, hreq, settle, historyFinally, historyThen]
    unfold HistoryResponse.length at hshort hrun
    cases hh : data.history with
    | none => rfl
    | some history =>
      simp only [hh, Option.getD_some] at hshort hrun
      simp only
      have hlt : decide (history.length ≥ pageSize) = false := by
        simp only [ge_iff_le, decide_eq_false_iff_not]; omega
      rcases hrun with hr | hr
      · subst hr
        simp only [if_true]
        split_ifs <;> simp [hlt]
      · have hnot : ¬ history.length > 0 := by omega
        simp only [hnot, if_false]
  have h2 := quiet_run_exhausted pageSize es _ hquiet h1
  exact ⟨h1, h2, loadMoreData_of_exhausted _ h2⟩

/-- C5, the scenario with page size 3: a first page of 3 samples gives
`hasMoreData = true`, a next page of 2 samples gives `hasMoreData = false` and
a buffer of 5 samples, and later `loadMoreData` calls do nothing. -/
theorem short_page_exhausts_witness :
    (run 3
        [Event.pageLoad,
         Event.historyDone 0
           (Outcome.success ⟨some [sampleAt 30, sampleAt 40, sampleAt 50], none⟩ true)]
        init).hasMoreData = true ∧
    (run 3
        [Event.pageLoad,
         Event.historyDone 0
           (Outcome.success ⟨some [sampleAt 30, sampleAt 40, sampleAt 50], none⟩ true),
         Event.loadMore,
         Event.historyDone 0 (Outcome.success ⟨some [sampleAt 10, sampleAt 20], none⟩ true)]
        init).allData.length = 5 ∧
    (step 3 (Event.historyDone 0 (Outcome.success ⟨some [sampleAt 10, sampleAt 20], none⟩ true))
        (run 3
          [Event.pageLoad,
           Event.historyDone 0
             (Outcome.success ⟨some [sampleAt 30, sampleAt 40, sampleAt 50], none⟩ true),
           Event.loadMore]
          init)).hasMoreData = false ∧
    (run 3 [Event.loadMore, Event.syncTick, Event.measureNowOk]
        (step 3 (Event.historyDone 0 (Outcome.success ⟨some [sampleAt 10, sampleAt 20], none⟩ true))
          (run 3
            [Event.pageLoad,
             Event.historyDone 0
               (Outcome.success ⟨some [sampleAt 30, sampleAt 40, sampleAt 50], none⟩ true),
             Event.loadMore]
            init))).hasMoreData = false ∧
    loadMoreData
        (run 3 [Event.loadMore, Event.syncTick, Event.measureNowOk]
          (step 3
            (Event.historyDone 0 (Outcome.success ⟨some [sampleAt 10, sampleAt 20], none⟩ true))
            (run 3
              [Event.pageLoad,
               Event.historyDone 0
                 (Outcome.success ⟨some [sampleAt 30, sampleAt 40, sampleAt 50], none⟩ true),
               Event.loadMore]
              init)))
      = run 3 [Event.loadMore, Event.syncTick, Event.measureNowOk]
          (step 3
            (Event.historyDone 0 (Outcome.success ⟨some [sampleAt 10, sampleAt 20], none⟩ true))
            (run 3
              [Event.pageLoad,
               Event.historyDone 0
                 (Outcome.success ⟨some [sampleAt 30, sampleAt 40, sampleAt 50], none⟩ true),
               Event.loadMore]
              init)) :=
  ⟨by decide, by decide,
    short_page_exhausts 3
      (run 3
        [Event.pageLoad,
         Event.historyDone 0
           (Outcome.success ⟨some [sampleAt 30, sampleAt 40, sampleAt 50], none⟩ true),
         Event.loadMore]
        init)
      0 ⟨1, true⟩ ⟨some [sampleAt 10, sampleAt 20], none⟩ true
      [Event.loadMore, Event.syncTick, Event.measureNowOk]
      (by decide) (by decide) (Or.inl rfl) (by decide)⟩

/-- C5 as stated fails when `updateCharts()` throws: the first response brings
a page of 2 samples, fewer than `PAGE_SIZE`; the page is put into `allData`,
the assignment to `hasMoreData` is not reached, so `hasMoreData` is still true
and the next `loadMoreData` call issues the request for page 1. -/
theorem short_page_render_error_counterexample :
    HistoryResponse.length ⟨some [sampleAt 10, sampleAt 20], none⟩ < PAGE_SIZE ∧
    (run PAGE_SIZE
        [Event.pageLoad,
         Event.historyDone 0 (Outcome.success ⟨some [sampleAt 10, sampleAt 20], none⟩ false)]
        init).allData = [sampleAt 10, sampleAt 20] ∧
    (run PAGE_SIZE
        [Event.pageLoad,
         Event.historyDone 0 (Outcome.success ⟨some [sampleAt 10, sampleAt 20], none⟩ false)]
        init).hasMoreData = true ∧
    (run PAGE_SIZE
        [Event.pageLoad,
         Event.historyDone 0 (Outcome.success ⟨some [sampleAt 10, sampleAt 20], none⟩ false)]
        init).outstanding = [] ∧
    (loadMoreData (run PAGE_SIZE
        [Event.pageLoad,
         Event.historyDone 0 (Outcome.success ⟨some [sampleAt 10, sampleAt 20], none⟩ false)]
        init)).outstanding = [⟨1, true⟩] := by
  decide

/-- C6 (amended): a response that was requested before a successful `clearLog`
and arrives after it is applied like any other, there is no staleness check:
the refresh merge appends to the emptied buffer every page sample with a
timestamp above 0, and the response of an older-page request that was
outstanding at the clear makes its non-empty page the whole buffer. -/
theorem stale_response_applied_after_clear (pageSize : Nat) (es : List Event)
    (page : List Sample) (hasMore : Option Bool) :
    (step pageSize Event.clearLogOk (run pageSize es init)).allData = [] ∧
    (0 < (run pageSize es init).syncOutstanding →
      (step pageSize (Event.syncDone (some ⟨some page, hasMore⟩))
          (step pageSize Event.clearLogOk (run pageSize es init))).allData
        = page.filter (fun item => decide (0 < item.timestamp))) ∧
    (∀ p : Nat, (run pageSize es init).outstanding.get? 0 = some ⟨p, true⟩ → page ≠ [] →
      (step pageSize (Event.historyDone 0 (Outcome.success ⟨some page, hasMore⟩ true))
          (step pageSize Event.clearLogOk (run pageSize es init))).allData
        = page) := by
  have hinv := lockInv_run pageSize es init lockInv_init
  generalize run pageSize es init = s at hinv
  have hclear : (step pageSize Event.clearLogOk s).allData = [] := by
    simp only [step, fetchHistory]
    split_ifs <;> rfl
  have hsyncN : (step pageSize Event.clearLogOk s).syncOutstanding = s.syncOutstanding := by
    simp only [step, fetchHistory]
    split_ifs <;> rfl
  refine ⟨hclear, ?_, ?_⟩
  · intro hpos
    have hne : ¬ (step pageSize Event.clearLogOk s).syncOutstanding = 0 := by
      rw [hsyncN]; omega
    have hmerge : syncThen ⟨some page, hasMore⟩ []
        = page.filter (fun item => decide (0 < item.timestamp)) := by
      rw [syncThen_filter_eq]
      simp [latestStoredTimestamp]
    generalize step pageSize Event.clearLogOk s = t at hclear hne
    simp only [step, hne, if_false, hclear, hmerge]
  · intro p hreq hpage
    have hl : s.isLoadingMore = true := by
      cases hl : s.isLoadingMore with
      | true => rfl
      | false => rw [hinv.2 hl] at hreq; simp at hreq
    have hstep : step pageSize Event.clearLogOk s
        = { s with allData := [], currentPage := 0, hasMoreData := true } := by
      simp [step, fetchHistory, hl]
    rw [hstep]
    have hlen : 0 < page.length := List.length_pos.mpr hpage
    have hreq2 : s.outstanding[0]? = some ⟨p, true⟩ := by simpa using hreq
    simp [step, hreq2, settle, historyFinally, historyThen, hlen]

set_option maxRecDepth 100000 in
/-- C6, an instance: with a refresh request and an older-page request on the
wire when the log is cleared, either late response puts its sample into the
emptied buffer. -/
theorem stale_response_applied_after_clear_witness :
    0 < (run PAGE_SIZE pendingSession init).syncOutstanding ∧
    (run PAGE_SIZE pendingSession init).outstanding.get? 0 = some ⟨1, true⟩ ∧
    (step PAGE_SIZE (Event.syncDone (some ⟨some [sampleAt 1000], none⟩))
        (step PAGE_SIZE Event.clearLogOk (run PAGE_SIZE pendingSession init))).allData
      = [sampleAt 1000].filter (fun item => decide (0 < item.timestamp)) ∧
    (step PAGE_SIZE (Event.historyDone 0 (Outcome.success ⟨some [sampleAt 1000], none⟩ true))
        (step PAGE_SIZE Event.clearLogOk (run PAGE_SIZE pendingSession init))).allData
      = [sampleAt 1000] :=
  ⟨by decide, by decide,
    (stale_response_applied_after_clear PAGE_SIZE pendingSession [sampleAt 1000] none).2.1
      (by decide),
    (stale_response_applied_after_clear PAGE_SIZE pendingSession [sampleAt 1000] none).2.2 1
      (by decide) (by decide)⟩

set_option maxRecDepth 100000 in
/-- C6 as stated fails: the refresh request goes out while the buffer holds
the samples 100 and 700, the log is cleared and the reload returns nothing, so
the buffer is empty; the late refresh response then puts both samples back.
The same happens to the response of an older-page request that was
outstanding when the log was cleared. -/
theorem stale_response_counterexample :
    (run PAGE_SIZE
        [Event.pageLoad,
         Event.historyDone 0 (Outcome.success ⟨some [sampleAt 100, sampleAt 700], none⟩ true),
         Event.syncTick, Event.clearLogOk,
         Event.historyDone 0 (Outcome.success ⟨some [], none⟩ true)]
        init).allData = [] ∧
    (run PAGE_SIZE
        [Event.pageLoad,
         Event.historyDone 0 (Outcome.success ⟨some [sampleAt 100, sampleAt 700], none⟩ true),
         Event.syncTick, Event.clearLogOk,
         Event.historyDone 0 (Outcome.success ⟨some [], none⟩ true),
         Event.syncDone (some ⟨some [sampleAt 100, sampleAt 700], none⟩)]
        init).allData = [sampleAt 100, sampleAt 700] ∧
    (run PAGE_SIZE
        [Event.pageLoad, Event.historyDone 0 (Outcome.success ⟨some (fullPage 1000), none⟩ true),
         Event.loadMore, Event.clearLogOk]
        init).allData = [] ∧
    (run PAGE_SIZE
        [Event.pageLoad, Event.historyDone 0 (Outcome.success ⟨some (fullPage 1000), none⟩ true),
         Event.loadMore, Event.clearLogOk,
         Event.historyDone 0 (Outcome.success ⟨some [sampleAt 400], none⟩ true)]
        init).allData = [sampleAt 400] := by
  decide

/-- C7: `setStatusColor` shows `Good` exactly below 800, `Moderate` exactly
from 800 and below 1200, `High` exactly from 1200 and below 1500, `Very High`
exactly from 1500 on, each with its own colour; 799, 800, 1499 and 1500 give
Good, Moderate, High and Very High. -/
theorem setStatusColor_thresholds (co2 : Rat) :
    ((setStatusColor co2).label = "Good" ↔ co2 < 800) ∧
    ((setStatusColor co2).label = "Moderate" ↔ 800 ≤ co2 ∧ co2 < 1200) ∧
    ((setStatusColor co2).label = "High" ↔ 1200 ≤ co2 ∧ co2 < 1500) ∧
    ((setStatusColor co2).label = "Very High" ↔ 1500 ≤ co2) ∧
    ((setStatusColor co2).color = "#4CAF50" ↔ co2 < 800) ∧
    ((setStatusColor co2).color = "#FFC107" ↔ 800 ≤ co2 ∧ co2 < 1200) ∧
    ((setStatusColor co2).color = "#FF9800" ↔ 1200 ≤ co2 ∧ co2 < 1500) ∧
    ((setStatusColor co2).color = "#F44336" ↔ 1500 ≤ co2) ∧
    (setStatusColor 799).label = "Good" ∧
    (setStatusColor 800).label = "Moderate" ∧
    (setStatusColor 1499).label = "High" ∧
    (setStatusColor 1500).label = "Very High" := by
  refine ⟨?_, ?_, ?_, ?_, ?_, ?_, ?_, ?_, by decide, by decide, by decide, by decide⟩ <;>
  · unfold setStatusColor
    split_ifs with h1 h2 h3 <;> simp <;>
      first
        | linarith
        | (intro h; linarith)
        | (constructor <;> linarith)

/-- C8 (amended): for a strictly ascending buffer and a page every timestamp
of which is already in the buffer, the refresh merge leaves `allData`, and so
its number of entries, unchanged. -/
theorem syncThen_drops_overlap (allData page : List Sample) (hasMore : Option Bool)
    (hasc : StrictAsc allData) (hov : FullyOverlaps page allData) :
    syncThen ⟨some page, hasMore⟩ allData = allData ∧
    (syncThen ⟨some page, hasMore⟩ allData).length = allData.length := by
  have hnone :
      page.filter (fun item => decide (latestStoredTimestamp allData < item.timestamp)) = [] := by
    rw [List.filter_eq_nil_iff]
    intro x hx
    obtain ⟨y, hy, hxy⟩ := hov x hx
    have hle := mem_le_latestStoredTimestamp allData hasc y hy
    simp only [decide_eq_true_eq, not_lt]
    omega
  have heq : syncThen ⟨some page, hasMore⟩ allData = allData := by
    rw [syncThen_filter_eq, hnone, List.append_nil]
  exact ⟨heq, by rw [heq]⟩

/-- C8, an instance: the page repeats both stored samples. -/
theorem syncThen_drops_overlap_witness :
    StrictAsc [sampleAt 100, sampleAt 200] ∧
    FullyOverlaps [sampleAt 200, sampleAt 100] [sampleAt 100, sampleAt 200] ∧
    syncThen ⟨some [sampleAt 200, sampleAt 100], none⟩ [sampleAt 100, sampleAt 200]
      = [sampleAt 100, sampleAt 200] ∧
    (syncThen ⟨some [sampleAt 200, sampleAt 100], none⟩ [sampleAt 100, sampleAt 200]).length
      = [sampleAt 100, sampleAt 200].length :=
  ⟨by decide, by decide,
    syncThen_drops_overlap [sampleAt 100, sampleAt 200] [sampleAt 200, sampleAt 100] none
      (by decide) (by decide)⟩

/-- C8 as stated fails: an older-page load prepends a page that repeats the
stored timestamp, giving two entries for one; and on a buffer that is not
ascending the refresh merge appends a sample whose timestamp is stored. -/
theorem merge_overlap_counterexample :
    (FullyOverlaps [sampleAt 100] [sampleAt 100] ∧
      (historyThen PAGE_SIZE true ⟨some [sampleAt 100], none⟩ true
          { init with allData := [sampleAt 100] }).allData = [sampleAt 100, sampleAt 100] ∧
      (historyThen PAGE_SIZE true ⟨some [sampleAt 100], none⟩ true
          { init with allData := [sampleAt 100] }).allData.length ≠ [sampleAt 100].length) ∧
    (FullyOverlaps [sampleAt 5] [sampleAt 5, sampleAt 3] ∧
      syncThen ⟨some [sampleAt 5], none⟩ [sampleAt 5, sampleAt 3]
        = [sampleAt 5, sampleAt 3, sampleAt 5] ∧
      (syncThen ⟨some [sampleAt 5], none⟩ [sampleAt 5, sampleAt 3]).length
        ≠ [sampleAt 5, sampleAt 3].length) := by
  decide

/-- C9: whatever way an outstanding history request completes (a page, an
empty or missing history, a network failure, a body that does not decode, an
error thrown while the response is applied), `isLoadingMore` is false once
its handlers have run. -/
theorem lock_released_on_completion (pageSize : Nat) (s : State) (i : Nat) (req : Request)
    (o : Outcome) (h : s.outstanding.get? i = some req) :
    (step pageSize (Event.historyDone i o) s).isLoadingMore = false := by
  simp only [step, h]
  cases o with
  | networkFailure => rfl
  | decodeFailure => rfl
  | success data renderOk => rfl

/-- C9, instances: the first request of the page fails, or its response makes
`updateCharts` throw. -/
theorem lock_released_on_completion_witness :
    (run PAGE_SIZE [Event.pageLoad] init).isLoadingMore = true ∧
    (step PAGE_SIZE (Event.historyDone 0 Outcome.networkFailure)
        (run PAGE_SIZE [Event.pageLoad] init)).isLoadingMore = false ∧
    (step PAGE_SIZE (Event.historyDone 0 (Outcome.success ⟨some [sampleAt 100], none⟩ false))
        (run PAGE_SIZE [Event.pageLoad] init)).isLoadingMore = false :=
  ⟨by decide,
    lock_released_on_completion PAGE_SIZE (run PAGE_SIZE [Event.pageLoad] init) 0 ⟨0, false⟩
      Outcome.networkFailure (by decide),
    lock_released_on_completion PAGE_SIZE (run PAGE_SIZE [Event.pageLoad] init) 0 ⟨0, false⟩
      (Outcome.success ⟨some [sampleAt 100], none⟩ false) (by decide)⟩

/-- C10 (amended): for a sample not later than `now`, `formatTimeLabel` picks
the label by the whole 24-hour periods elapsed since the sample: time only
exactly when fewer than 24 hours have passed, `Yesterday` and the time exactly
from 24 and below 48 hours, weekday and time exactly from 48 hours and below 7
times 24 hours, month/day and time otherwise. -/
theorem formatTimeLabel_by_elapsed (timestamp now : Int) (h : timestamp * 1000 ≤ now) :
    (formatTimeLabel timestamp now = LabelForm.timeOnly ↔ now - timestamp * 1000 < msPerDay) ∧
    (formatTimeLabel timestamp now = LabelForm.yesterdayTime ↔
      msPerDay ≤ now - timestamp * 1000 ∧ now - timestamp * 1000 < 2 * msPerDay) ∧
    (formatTimeLabel timestamp now = LabelForm.weekdayTime ↔
      2 * msPerDay ≤ now - timestamp * 1000 ∧ now - timestamp * 1000 < 7 * msPerDay) ∧
    (formatTimeLabel timestamp now = LabelForm.monthDayTime ↔
      7 * msPerDay ≤ now - timestamp * 1000) := by
  unfold formatTimeLabel diffDays msPerDay
  refine ⟨?_, ?_, ?_, ?_⟩ <;>
  · split_ifs with h1 h2 h3 <;> simp <;> omega

/-- C10, instances: 11 hours, 35 hours and 8 days before `now`. -/
theorem formatTimeLabel_by_elapsed_witness :
    (82800 : Int) * 1000 ≤ 122400000 ∧
    formatTimeLabel 82800 122400000 = LabelForm.timeOnly ∧
    formatTimeLabel 82800 208800000 = LabelForm.yesterdayTime ∧
    formatTimeLabel 82800 774000000 = LabelForm.monthDayTime :=
  ⟨by decide,
    (formatTimeLabel_by_elapsed 82800 122400000 (by decide)).1.mpr (by decide),
    (formatTimeLabel_by_elapsed 82800 208800000 (by decide)).2.1.mpr (by decide),
    (formatTimeLabel_by_elapsed 82800 774000000 (by decide)).2.2.2.mpr (by decide)⟩

/-- C10 as stated fails (viewer in UTC): a sample of 23:00 seen at 10:00 the
next morning is on the previous calendar day yet gets the time-only label, and
seen at 10:00 two mornings later it is two calendar days back yet gets the
`Yesterday` label. -/
theorem formatTimeLabel_calendar_counterexample :
    ((82800 : Int) * 1000 ≤ 122400000 ∧
      calendarDay 0 (82800 * 1000) = 0 ∧ calendarDay 0 122400000 = 1 ∧
      formatTimeLabel 82800 122400000 = LabelForm.timeOnly ∧
      calendarLabelForm 0 82800 122400000 = LabelForm.yesterdayTime) ∧
    ((82800 : Int) * 1000 ≤ 208800000 ∧
      calendarDay 0 (82800 * 1000) = 0 ∧ calendarDay 0 208800000 = 2 ∧
      formatTimeLabel 82800 208800000 = LabelForm.yesterdayTime ∧
      calendarLabelForm 0 82800 208800000 = LabelForm.weekdayTime) := by
  decide

end Dashboard
